import Mathlib

/-
  Shallow embedding of src/app/main.py from the scm-backend repository:
  the FastAPI application layer (lifespan hook, CORS middleware, static
  mount, favicon endpoint, root endpoint, health endpoint, and the global
  exception handler), together with theorems settling the claims about it.
-/

namespace SCM

/-- A JSON value, as produced by the handlers in main.py.  Objects keep
their fields in insertion order, matching Python dict literals. -/
inductive Json where
  | str (s : String)
  | bool (b : Bool)
  | obj (fields : List (String × Json))

/-- The keys of a JSON object, in order; empty for non-objects. -/
def Json.keys : Json → List String
  | .obj fs => fs.map Prod.fst
  | _ => []

/-- Field lookup in a JSON object. -/
def Json.lookup : Json → String → Option Json
  | .obj fs, k => (fs.find? (fun p => p.fst == k)).map Prod.snd
  | _, _ => none

/-- The configuration object returned by get_config() in app.utils.config.
Only the field read by main.py is modelled: the Gemini API credential.
Python truthiness of the string (bool(_cfg.gemini_api_key)) is
non-emptiness. -/
structure Config where
  gemini_api_key : String
deriving DecidableEq, Repr

/-- A Python exception as main.py observes it: a type name and a message.
main.py never inspects either field. -/
structure PyError where
  ty : String
  msg : String
deriving DecidableEq, Repr

/-- Outcome of the startup phase of the lifespan hook: either startup
completes with the computed AI-availability flag, or the uncaught
init_database() exception propagates. -/
inductive StartupResult where
  | ok (gemini_available : Bool)
  | dbFailure (e : PyError)
deriving DecidableEq, Repr

/-- The startup phase of the lifespan hook (main.py lines 23-36):
init_database() runs first and is not guarded, so its exception
propagates; then get_config() is reloaded inside try/except and the
AI-availability flag is bool(_cfg.gemini_api_key), defaulting to false
on any exception. -/
def lifespanStartup (initDb : Except PyError Unit)
    (getCfg : Except PyError Config) : StartupResult :=
  match initDb with
  | .error e => .dbFailure e
  | .ok _ =>
    match getCfg with
    | .ok cfg => .ok (!cfg.gemini_api_key.isEmpty)
    | .error _ => .ok false

/-- An incoming HTTP request, as seen by the exception handler (which
ignores it). -/
structure Request where
  path : String
deriving DecidableEq, Repr

/-- A starlette JSONResponse: status code plus JSON content. -/
structure JSONResponse where
  status_code : Nat
  content : Json

/-- global_exception_handler from main.py: a constant 500 response,
independent of the request and of the exception. -/
def global_exception_handler (_request : Request) (_exc : PyError) :
    JSONResponse :=
  { status_code := 500
    content := .obj [("success", .bool false),
                     ("error", .str "Internal server error"),
                     ("message", .str "Something went wrong. Please try again.")] }

/-- health_check from main.py.  The runtime flag app.state.gemini_available
and the datetime.now().isoformat() string are inputs. -/
def health_check (gemini_available : Bool) (now : String) : Json :=
  .obj [("status", .str "healthy"),
        ("timestamp", .str now),
        ("version", .str "1.0.0"),
        ("ai_status",
          .str (if gemini_available then "operational" else "unavailable")),
        ("database", .str "connected")]

/-- root from main.py: a constant metadata object. -/
def root : Json :=
  .obj [("name", .str "AI Supply Chain Management Platform"),
        ("version", .str "1.0.0"),
        ("description",
          .str "AI-powered supply chain management for Indian retail businesses"),
        ("ai_model", .str "Gemini 2.5 Pro"),
        ("market_focus", .str "Indian Retail MSME"),
        ("endpoints",
          .obj [("demand_forecasting", .str "/api/demand/forecast"),
                ("inventory_management", .str "/api/inventory/"),
                ("logistics_tracking", .str "/api/logistics/shipments"),
                ("scenario_analysis", .str "/api/scenarios/analyze"),
                ("reports", .str "/api/reports/")])]

/-- The CORSMiddleware configuration registered on the app. -/
structure CORSConfig where
  allow_origins : List String
  allow_credentials : Bool
  allow_methods : List String
  allow_headers : List String
deriving DecidableEq, Repr

/-- os.getenv over an environment modelled as an association list. -/
def getenv (env : List (String × String)) (key : String) : Option String :=
  (env.find? (fun p => p.fst == key)).map Prod.snd

/-- The CORS middleware registration from main.py lines 56-62:
allow_origins is the one-element list [os.getenv("CLIENT_URL", "*")]. -/
def corsMiddleware (env : List (String × String)) : CORSConfig :=
  { allow_origins := [(getenv env "CLIENT_URL").getD "*"]
    allow_credentials := true
    allow_methods := ["*"]
    allow_headers := ["*"] }

/-- os.path.join for a relative second component. -/
def joinPath (a b : String) : String := a ++ "/" ++ b

/-- The possible return values of the favicon handler: a FileResponse
with a media type, or a plain JSON body (serialized with status 200). -/
inductive FaviconResponse where
  | fileResponse (path : String) (media_type : String)
  | jsonBody (content : Json)

/-- favicon from main.py: serve static_dir/favicon.svg as image/svg+xml
when os.path.exists says it is there, else return the not-found dict as
a normal success payload.  pathExists models os.path.exists. -/
def favicon (pathExists : String → Bool) (static_dir : String) :
    FaviconResponse :=
  let path := joinPath static_dir "favicon.svg"
  if pathExists path then .fileResponse path "image/svg+xml"
  else .jsonBody (.obj [("detail", .str "favicon not found")])

/-- The static-file mounts registered at construction (main.py lines
65-67): the /static mount exists exactly when os.path.isdir(static_dir)
holds.  Each mount is a (route, directory) pair. -/
def staticMounts (isdir : String → Bool) (static_dir : String) :
    List (String × String) :=
  if isdir static_dir then [("/static", static_dir)] else []

/-- The mutable per-app state touched by main.py: only the
gemini_available flag on app.state. -/
structure AppState where
  gemini_available : Bool
deriving DecidableEq, Repr

/-- app.state.gemini_available = False at construction (main.py line 53). -/
def initialAppState : AppState := { gemini_available := false }

/-- Writing the startup outcome into the app state: the one assignment
performed inside the lifespan hook.  On a propagated database failure the
hook never reaches the assignment. -/
def applyStartup (s : AppState) : StartupResult → AppState
  | .ok b => { gemini_available := b }
  | .dbFailure _ => s

/-- The operations this layer serves after startup, plus the shutdown
phase of the lifespan hook. -/
inductive Op where
  | rootReq
  | healthReq (now : String)
  | faviconReq (pathExists : String → Bool) (static_dir : String)
  | excHandler (r : Request) (e : PyError)
  | shutdownEvt

/-- A response produced by one operation. -/
inductive Response where
  | jsonVal (j : Json)
  | jsonResp (r : JSONResponse)
  | fav (f : FaviconResponse)
  | noContent

/-- Run one operation against the app state, returning the response and
the state afterwards.  Every handler in main.py only reads the state. -/
def applyOp (s : AppState) : Op → Response × AppState
  | .rootReq => (.jsonVal root, s)
  | .healthReq now => (.jsonVal (health_check s.gemini_available now), s)
  | .faviconReq pathExists static_dir =>
      (.fav (favicon pathExists static_dir), s)
  | .excHandler r e => (.jsonResp (global_exception_handler r e), s)
  | .shutdownEvt => (.noContent, s)

/-- Run a sequence of operations, threading the app state. -/
def runOps (s : AppState) (ops : List Op) : AppState :=
  ops.foldl (fun st op => (applyOp st op).2) s

/-- The module-level values bound when app.main is imported: the
import-time configuration snapshot (line 19), the CORS registration and
the static mounts. -/
structure AppModule where
  config : Config
  cors : CORSConfig
  mounts : List (String × String)
deriving DecidableEq, Repr

/-- Evaluating the module body of main.py: config = get_config() is
bound at line 19, the CORS middleware and static mounts are registered. -/
def buildModule (importCfg : Config) (env : List (String × String))
    (isdir : String → Bool) (static_dir : String) : AppModule :=
  { config := importCfg
    cors := corsMiddleware env
    mounts := staticMounts isdir static_dir }

/-- Everything a client can observe from this layer in one run. -/
structure Observables where
  cors : CORSConfig
  mounts : List (String × String)
  startup : StartupResult
  rootResp : Json
  healthResp : Json
  faviconResp : FaviconResponse
  excResp : JSONResponse

/-- The observable behaviour of one run: startup runs the lifespan hook
with the fresh get_config() call, then each endpoint answers from the
resulting state.  Mirrors main.py, where the module-level snapshot is
bound but never referenced again. -/
def observe (m : AppModule) (initDb : Except PyError Unit)
    (getCfg : Except PyError Config) (now : String)
    (pathExists : String → Bool) (static_dir : String)
    (r : Request) (e : PyError) : Observables :=
  let st := lifespanStartup initDb getCfg
  let state := applyStartup initialAppState st
  { cors := m.cors
    mounts := m.mounts
    startup := st
    rootResp := root
    healthResp := health_check state.gemini_available now
    faviconResp := favicon pathExists static_dir
    excResp := global_exception_handler r e }

/-- C1: the global exception handler returns status 500 with the exact
constant body for every request and exception, so the response is the
same for any two request-exception pairs and no part of the exception
appears in it. -/
theorem global_exception_handler_constant :
    ∀ (r : Request) (e : PyError) (r2 : Request) (e2 : PyError),
      global_exception_handler r e =
        { status_code := 500
          content := .obj [("success", .bool false),
                           ("error", .str "Internal server error"),
                           ("message",
                             .str "Something went wrong. Please try again.")] } ∧
      global_exception_handler r e = global_exception_handler r2 e2 := by
  intro r e r2 e2
  exact ⟨rfl, rfl⟩

/-- C2: during startup the AI-availability flag is computed as
non-emptiness of the credential, and any exception from the
configuration reload yields flag false with startup completing
normally. -/
theorem lifespan_ai_flag :
    ∀ (cfg : Config) (err : PyError),
      lifespanStartup (.ok ()) (.ok cfg) = .ok (!cfg.gemini_api_key.isEmpty) ∧
      lifespanStartup (.ok ()) (.error err) = .ok false := by
  intro cfg err
  exact ⟨rfl, rfl⟩

/-- C3: for every flag value, /health returns exactly the keys status,
timestamp, version, ai_status, database, with status healthy, version
1.0.0, ai_status operational or unavailable according to the flag, and
database connected unconditionally. -/
theorem health_check_shape :
    ∀ (b : Bool) (now : String),
      (health_check b now).keys =
        ["status", "timestamp", "version", "ai_status", "database"] ∧
      (health_check b now).lookup "status" = some (.str "healthy") ∧
      (health_check b now).lookup "timestamp" = some (.str now) ∧
      (health_check b now).lookup "version" = some (.str "1.0.0") ∧
      (health_check b now).lookup "ai_status" =
        some (.str (if b then "operational" else "unavailable")) ∧
      ((health_check b now).lookup "ai_status" = some (.str "operational") ∨
       (health_check b now).lookup "ai_status" = some (.str "unavailable")) ∧
      (health_check b now).lookup "database" = some (.str "connected") := by
  intro b now
  cases b <;>
    simp [health_check, Json.keys, Json.lookup, List.find?]

/-- C4: the AI-availability flag starts false at construction, every
operation of this layer leaves the state unchanged, any sequence of
operations leaves it unchanged, and every post-startup /health call
reports the same ai_status determined by the startup flag. -/
theorem gemini_flag_write_once :
    initialAppState.gemini_available = false ∧
    (∀ (s : AppState) (op : Op), (applyOp s op).2 = s) ∧
    (∀ (s : AppState) (ops : List Op), runOps s ops = s) ∧
    (∀ (b : Bool) (ops : List Op) (now : String),
      (health_check
          (runOps (applyStartup initialAppState (.ok b)) ops).gemini_available
          now).lookup "ai_status" =
        some (.str (if b then "operational" else "unavailable"))) := by
  have hop : ∀ (s : AppState) (op : Op), (applyOp s op).2 = s := by
    intro s op
    cases op <;> rfl
  have hrun : ∀ (ops : List Op) (s : AppState), runOps s ops = s := by
    intro ops
    induction ops with
    | nil => intro s; rfl
    | cons op rest ih =>
        intro s
        have : runOps s (op :: rest) = runOps (applyOp s op).2 rest := rfl
        rw [this, hop s op, ih s]
  refine ⟨rfl, hop, fun s ops => hrun ops s, ?_⟩
  intro b ops now
  rw [hrun ops (applyStartup initialAppState (.ok b))]
  cases b <;> simp [applyStartup, health_check, Json.lookup, List.find?]

/-- C5: a database-initialization failure propagates out of the startup
hook regardless of what the configuration loader would do, while with a
successful initialization startup always completes with some flag. -/
theorem startup_db_failure_propagates :
    ∀ (e : PyError) (getCfg : Except PyError Config),
      lifespanStartup (.error e) getCfg = .dbFailure e ∧
      (∀ u : Unit, ∃ b : Bool, lifespanStartup (.ok u) getCfg = .ok b) := by
  intro e getCfg
  refine ⟨rfl, fun u => ?_⟩
  cases getCfg with
  | ok cfg => exact ⟨!cfg.gemini_api_key.isEmpty, rfl⟩
  | error err => exact ⟨false, rfl⟩

/-- C6: the CORS policy is static: the allowed-origin list is exactly
the one-element list holding the CLIENT_URL value with default wildcard,
credentials are allowed, and methods and headers are the wildcard
list. -/
theorem cors_policy_static :
    ∀ (env : List (String × String)),
      (corsMiddleware env).allow_origins =
        [(getenv env "CLIENT_URL").getD "*"] ∧
      (corsMiddleware env).allow_credentials = true ∧
      (corsMiddleware env).allow_methods = ["*"] ∧
      (corsMiddleware env).allow_headers = ["*"] := by
  intro env
  exact ⟨rfl, rfl, rfl, rfl⟩

/-- C7: for every filesystem predicate, the favicon handler returns the
SVG FileResponse exactly when static_dir/favicon.svg exists, and the
not-found JSON payload (a plain success body, no error status) exactly
when it does not; being a total function it never raises. -/
theorem favicon_total :
    ∀ (pathExists : String → Bool) (static_dir : String),
      (pathExists (joinPath static_dir "favicon.svg") = true →
        favicon pathExists static_dir =
          .fileResponse (joinPath static_dir "favicon.svg") "image/svg+xml") ∧
      (pathExists (joinPath static_dir "favicon.svg") = false →
        favicon pathExists static_dir =
          .jsonBody (.obj [("detail", .str "favicon not found")])) := by
  intro pathExists static_dir
  constructor
  · intro h
    simp [favicon, h]
  · intro h
    simp [favicon, h]

/-- Witness for favicon_total at concrete filesystem predicates. -/
theorem favicon_total_witness :
    favicon (fun _ => true) "app/static" =
      .fileResponse "app/static/favicon.svg" "image/svg+xml" ∧
    favicon (fun _ => false) "app/static" =
      .jsonBody (.obj [("detail", .str "favicon not found")]) :=
  ⟨(favicon_total (fun _ => true) "app/static").1 rfl,
   (favicon_total (fun _ => false) "app/static").2 rfl⟩

/-- C8: the root endpoint is a constant object with version 1.0.0 and an
endpoints map whose keys are exactly the five capability names, and the
handler neither reads nor writes the app state. -/
theorem root_static_metadata :
    root.lookup "version" = some (.str "1.0.0") ∧
    (root.lookup "endpoints").map Json.keys =
      some ["demand_forecasting", "inventory_management",
            "logistics_tracking", "scenario_analysis", "reports"] ∧
    (∀ s : AppState, applyOp s .rootReq = (.jsonVal root, s)) := by
  refine ⟨rfl, rfl, ?_⟩
  intro s
  rfl

/-- C9: the /static mount is registered if and only if the static
directory exists; when absent, construction yields no mounts (and the
definition is total, so construction completes without error). -/
theorem static_mount_iff_dir :
    ∀ (isdir : String → Bool) (static_dir : String),
      (isdir static_dir = true →
        staticMounts isdir static_dir = [("/static", static_dir)]) ∧
      (isdir static_dir = false → staticMounts isdir static_dir = []) := by
  intro isdir static_dir
  constructor
  · intro h
    simp [staticMounts, h]
  · intro h
    simp [staticMounts, h]

/-- Witness for static_mount_iff_dir at concrete directory predicates. -/
theorem static_mount_iff_dir_witness :
    staticMounts (fun _ => true) "app/static" = [("/static", "app/static")] ∧
    staticMounts (fun _ => false) "app/static" = [] :=
  ⟨(static_mount_iff_dir (fun _ => true) "app/static").1 rfl,
   (static_mount_iff_dir (fun _ => false) "app/static").2 rfl⟩

/-- C10: two runs that differ only in the import-time configuration
snapshot produce identical observable behaviour: the snapshot bound at
module level is never read by any handler or by the startup hook. -/
theorem import_snapshot_noninterference :
    ∀ (c1 c2 : Config) (env : List (String × String))
      (isdir : String → Bool) (static_dir : String)
      (initDb : Except PyError Unit) (getCfg : Except PyError Config)
      (now : String) (pathExists : String → Bool)
      (r : Request) (e : PyError),
      observe (buildModule c1 env isdir static_dir) initDb getCfg now
          pathExists static_dir r e =
        observe (buildModule c2 env isdir static_dir) initDb getCfg now
          pathExists static_dir r e := by
  intro c1 c2 env isdir static_dir initDb getCfg now pathExists r e
  rfl

end SCM
